import Mathlib

/-!
# Verification of the fuse-mt translation layer specification

Shallow embedding of the fuse-mt repository (src/src/types.rs,
src/examples/hello/src/main.rs) and, where the repository's inode-table
module is referenced but its source is not present, a model built from the
specification's contract for it.

Modelling conventions:
* `OsStr` / `OsString` / `Path` are modelled as `String`;
* byte buffers (`&[u8]`, `Vec<u8>`) as `List Nat` (byte values);
* `SystemTime` and `Duration` as `Nat` (an abstract tick count);
* `u16`/`u32`/`u64` as `Nat` (no arithmetic in the embedded code can
  overflow except where explicitly discussed at the call site);
* `libc::c_int` error codes as `Int`, `Result<T, c_int>` as `Except Int T`;
* the macOS-only conditional methods (`utimens_macos`, `setvolname`,
  `getxtimes`) are outside the embedded (Linux) configuration.
-/

namespace FuseMT

/-- Linux value of the `libc::ENOSYS` ("operation not supported") code. -/
def ENOSYS : Int := 38

/-- Linux value of the `libc::ENOENT` ("not found") code. -/
def ENOENT : Int := 2

/-- Linux value of the `libc::ENOTDIR` code. -/
def ENOTDIR : Int := 20

/-- Kinds of filesystem objects (the transport crate's `FileType`). -/
inductive FileType where
  | namedPipe
  | charDevice
  | blockDevice
  | directory
  | regularFile
  | symlink
  | socket
deriving DecidableEq, Repr

/-- Inode numbers (`pub type Inode` re-exported from the inode table). -/
abbrev Inode := Nat

/-- `RequestInfo`: request id, uid, gid, pid of the requesting process. -/
structure RequestInfo where
  unique : Nat
  uid : Nat
  gid : Nat
  pid : Nat
deriving DecidableEq, Repr

/-- `DirectoryEntry`: one entry of a directory listing. -/
structure DirectoryEntry where
  name : String
  kind : FileType
deriving DecidableEq, Repr

/-- `Statfs`: filesystem statistics record. -/
structure Statfs where
  blocks : Nat
  bfree : Nat
  bavail : Nat
  files : Nat
  ffree : Nat
  bsize : Nat
  namelen : Nat
  frsize : Nat
deriving DecidableEq, Repr

/-- `FileAttr`: file attributes. -/
structure FileAttr where
  size : Nat
  blocks : Nat
  atime : Nat
  mtime : Nat
  ctime : Nat
  crtime : Nat
  kind : FileType
  perm : Nat
  nlink : Nat
  uid : Nat
  gid : Nat
  rdev : Nat
  flags : Nat
deriving DecidableEq, Repr

/-- `RawFileAttr`: file attributes together with inode and generation. -/
structure RawFileAttr where
  inode : Inode
  generation : Nat
  attr : FileAttr
deriving DecidableEq, Repr

/-- The `Deref<Target = FileAttr>` impl for `RawFileAttr`. -/
def RawFileAttr.deref (r : RawFileAttr) : FileAttr :=
  r.attr

/-- The `From<RawFileAttr> for FileAttr` impl. -/
def FileAttr.fromRaw (r : RawFileAttr) : FileAttr :=
  r.attr

/-- `FileAttr::as_raw`: attach an inode and its generation. -/
def FileAttr.as_raw (a : FileAttr) (inode : Inode) (generation : Nat) : RawFileAttr :=
  { inode := inode, generation := generation, attr := a }

/-- `CreatedEntry`: result of `create`. -/
structure CreatedEntry (Attr : Type) where
  ttl : Nat
  attr : Attr
  fh : Nat
  flags : Nat
deriving DecidableEq, Repr

/-- `Xattr`: result of `listxattr` / `getxattr`, a size or data. -/
inductive Xattr where
  | size (n : Nat)
  | data (d : List Nat)
deriving DecidableEq, Repr

abbrev ResultEmpty := Except Int Unit
abbrev ResultEntry (Attr : Type) := Except Int (Nat × Attr)
abbrev ResultOpen := Except Int (Nat × Nat)
abbrev ResultReaddir := Except Int (List DirectoryEntry)
abbrev ResultData := Except Int (List Nat)
abbrev ResultSlice := Except Int (List Nat)
abbrev ResultWrite := Except Int Nat
abbrev ResultStatfs := Except Int Statfs
abbrev ResultCreate (Attr : Type) := Except Int (CreatedEntry Attr)
abbrev ResultXattr := Except Int Xattr
abbrev ResultInode := Except Int Inode

/-- `CallbackResult`: in the source this is an opaque token constructible
only by the crate (it is what the `read` callback returns, and what `read`
itself must return).  The embedding instruments it as the list of arguments
with which the completion callback was invoked, so that the number of
invocations and their payloads are observable: the canonical observing
callback is `fun r => [r]`. -/
def CallbackResult := List ResultSlice

namespace FilesystemMT

/-! Default bodies of the `FilesystemMT` trait methods (src/src/types.rs
lines 182-541).  The trait is generic over the path type `T` and the
attribute type `Attr`; the defaults ignore every argument. -/

/-- Default `init`: `Ok(())`. -/
def default_init (_req : RequestInfo) : ResultEmpty :=
  .ok ()

/-- Default `destroy`: does nothing. -/
def default_destroy : Unit :=
  ()

/-- Default `getattr`: `Err(ENOSYS)`. -/
def default_getattr {T Attr : Type} (_req : RequestInfo) (_path : T)
    (_fh : Option Nat) : ResultEntry Attr :=
  .error ENOSYS

/-- Default `chmod`: `Err(ENOSYS)`. -/
def default_chmod {T : Type} (_req : RequestInfo) (_path : T)
    (_fh : Option Nat) (_mode : Nat) : ResultEmpty :=
  .error ENOSYS

/-- Default `chown`: `Err(ENOSYS)`. -/
def default_chown {T : Type} (_req : RequestInfo) (_path : T)
    (_fh : Option Nat) (_uid : Option Nat) (_gid : Option Nat) : ResultEmpty :=
  .error ENOSYS

/-- Default `truncate`: `Err(ENOSYS)`. -/
def default_truncate {T : Type} (_req : RequestInfo) (_path : T)
    (_fh : Option Nat) (_size : Nat) : ResultEmpty :=
  .error ENOSYS

/-- Default `utimens`: `Err(ENOSYS)`. -/
def default_utimens {T : Type} (_req : RequestInfo) (_path : T)
    (_fh : Option Nat) (_atime : Option Nat) (_mtime : Option Nat) : ResultEmpty :=
  .error ENOSYS

/-- Default `readlink`: `Err(ENOSYS)`. -/
def default_readlink {T : Type} (_req : RequestInfo) (_path : T) : ResultData :=
  .error ENOSYS

/-- Default `mknod`: `Err(ENOSYS)`. -/
def default_mknod {T Attr : Type} (_req : RequestInfo) (_parent : T)
    (_name : String) (_mode : Nat) (_rdev : Nat) : ResultEntry Attr :=
  .error ENOSYS

/-- Default `mkdir`: `Err(ENOSYS)`. -/
def default_mkdir {T Attr : Type} (_req : RequestInfo) (_parent : T)
    (_name : String) (_mode : Nat) : ResultEntry Attr :=
  .error ENOSYS

/-- Default `unlink`: `Err(ENOSYS)`. -/
def default_unlink {T : Type} (_req : RequestInfo) (_parent : T)
    (_name : String) : ResultEmpty :=
  .error ENOSYS

/-- Default `rmdir`: `Err(ENOSYS)`. -/
def default_rmdir {T : Type} (_req : RequestInfo) (_parent : T)
    (_name : String) : ResultEmpty :=
  .error ENOSYS

/-- Default `symlink`: `Err(ENOSYS)`. -/
def default_symlink {T Attr : Type} (_req : RequestInfo) (_parent : T)
    (_name : String) (_target : String) : ResultEntry Attr :=
  .error ENOSYS

/-- Default `rename`: `Err(ENOSYS)`. -/
def default_rename {T : Type} (_req : RequestInfo) (_parent : T)
    (_name : String) (_newparent : T) (_newname : String) : ResultEmpty :=
  .error ENOSYS

/-- Default `link`: `Err(ENOSYS)`. -/
def default_link {T Attr : Type} (_req : RequestInfo) (_path : T)
    (_newparent : T) (_newname : String) : ResultEntry Attr :=
  .error ENOSYS

/-- Default `open`: `Err(ENOSYS)`. -/
def default_open {T : Type} (_req : RequestInfo) (_path : T)
    (_flags : Nat) : ResultOpen :=
  .error ENOSYS

/-- Default `read`: `callback(Err(ENOSYS))` — its return value is produced
by invoking the supplied callback (once) with the not-supported error. -/
def default_read {T : Type} (_req : RequestInfo) (_path : T) (_fh : Nat)
    (_offset : Nat) (_size : Nat)
    (callback : ResultSlice → CallbackResult) : CallbackResult :=
  callback (.error ENOSYS)

/-- Default `write`: `Err(ENOSYS)`. -/
def default_write {T : Type} (_req : RequestInfo) (_path : T) (_fh : Nat)
    (_offset : Nat) (_data : List Nat) (_flags : Nat) : ResultWrite :=
  .error ENOSYS

/-- Default `flush`: `Err(ENOSYS)`. -/
def default_flush {T : Type} (_req : RequestInfo) (_path : T) (_fh : Nat)
    (_lock_owner : Nat) : ResultEmpty :=
  .error ENOSYS

/-- Default `release`: `Err(ENOSYS)`. -/
def default_release {T : Type} (_req : RequestInfo) (_path : T) (_fh : Nat)
    (_flags : Nat) (_lock_owner : Nat) (_flush : Bool) : ResultEmpty :=
  .error ENOSYS

/-- Default `fsync`: `Err(ENOSYS)`. -/
def default_fsync {T : Type} (_req : RequestInfo) (_path : T) (_fh : Nat)
    (_datasync : Bool) : ResultEmpty :=
  .error ENOSYS

/-- Default `opendir`: `Err(ENOSYS)`. -/
def default_opendir {T : Type} (_req : RequestInfo) (_path : T)
    (_flags : Nat) : ResultOpen :=
  .error ENOSYS

/-- Default `readdir`: `Err(ENOSYS)`. -/
def default_readdir {T : Type} (_req : RequestInfo) (_path : T)
    (_fh : Nat) : ResultReaddir :=
  .error ENOSYS

/-- Default `releasedir`: `Err(ENOSYS)`. -/
def default_releasedir {T : Type} (_req : RequestInfo) (_path : T)
    (_fh : Nat) (_flags : Nat) : ResultEmpty :=
  .error ENOSYS

/-- Default `fsyncdir`: `Err(ENOSYS)`. -/
def default_fsyncdir {T : Type} (_req : RequestInfo) (_path : T)
    (_fh : Nat) (_datasync : Bool) : ResultEmpty :=
  .error ENOSYS

/-- Default `statfs`: `Err(ENOSYS)`. -/
def default_statfs {T : Type} (_req : RequestInfo) (_path : T) : ResultStatfs :=
  .error ENOSYS

/-- Default `setxattr`: `Err(ENOSYS)`. -/
def default_setxattr {T : Type} (_req : RequestInfo) (_path : T)
    (_name : String) (_value : List Nat) (_flags : Nat)
    (_position : Nat) : ResultEmpty :=
  .error ENOSYS

/-- Default `getxattr`: `Err(ENOSYS)`. -/
def default_getxattr {T : Type} (_req : RequestInfo) (_path : T)
    (_name : String) (_size : Nat) : ResultXattr :=
  .error ENOSYS

/-- Default `listxattr`: `Err(ENOSYS)`. -/
def default_listxattr {T : Type} (_req : RequestInfo) (_path : T)
    (_size : Nat) : ResultXattr :=
  .error ENOSYS

/-- Default `removexattr`: `Err(ENOSYS)`. -/
def default_removexattr {T : Type} (_req : RequestInfo) (_path : T)
    (_name : String) : ResultEmpty :=
  .error ENOSYS

/-- Default `access`: `Err(ENOSYS)`. -/
def default_access {T : Type} (_req : RequestInfo) (_path : T)
    (_mask : Nat) : ResultEmpty :=
  .error ENOSYS

/-- Default `create`: `Err(ENOSYS)`. -/
def default_create {T Attr : Type} (_req : RequestInfo) (_parent : T)
    (_name : String) (_mode : Nat) (_flags : Nat) : ResultCreate Attr :=
  .error ENOSYS

end FilesystemMT

/-- The raw-mode extension trait `RawFilesystemMT` (src/src/types.rs lines
550-636), embedded as a record of its required operations: `lookup`,
`forget` and `parent`, none of which has a default body.  The path type is
`Inode` and the attribute type `RawFileAttr`, per the supertrait bound
`FilesystemMT<'a, Inode, RawFileAttr>`. -/
structure RawFilesystemMT where
  lookup : RequestInfo → Inode → String → ResultEntry RawFileAttr
  forget : RequestInfo → Inode → Nat → Unit
  parent : RequestInfo → Inode → ResultInode

/-- The example filesystem `HelloFS` (src/examples/hello/src/main.rs):
its two fields, a TTL and the boot timestamp. -/
structure HelloFS where
  ttl : Nat
  bootup : Nat
deriving DecidableEq, Repr

namespace HelloFS

/-- `HelloFS::ROOT_INODE`. -/
def ROOT_INODE : Inode := 1

/-- `HelloFS::HELLO_INODE`. -/
def HELLO_INODE : Inode := 2

/-- `HelloFS::HELLO_NAME`. -/
def HELLO_NAME : String := "hello.txt"

/-- `HelloFS::HELLO_CONTENT`: the bytes of
`b"Hello World, this is fuse-mt!\x0a"`. -/
def HELLO_CONTENT : List Nat :=
  "Hello World, this is fuse-mt!\x0a".toList.map Char.toNat

/-- `HelloFS::root_attr`. -/
def root_attr (fs : HelloFS) (uid gid : Nat) : FileAttr :=
  { size := 0
    blocks := 0
    atime := fs.bootup
    mtime := fs.bootup
    ctime := fs.bootup
    crtime := fs.bootup
    kind := .directory
    perm := 0o755
    nlink := 2
    uid := uid
    gid := gid
    rdev := 0
    flags := 0 }

/-- `HelloFS::hello_attr`. -/
def hello_attr (fs : HelloFS) (uid gid : Nat) : FileAttr :=
  { size := HELLO_CONTENT.length
    blocks := 1
    atime := fs.bootup
    mtime := fs.bootup
    ctime := fs.bootup
    crtime := fs.bootup
    kind := .regularFile
    perm := 0o755
    nlink := 1
    uid := uid
    gid := gid
    rdev := 0
    flags := 0 }

/-- `HelloFS`'s `getattr`. -/
def getattr (fs : HelloFS) (req : RequestInfo) (path : Inode)
    (_fh : Option Nat) : ResultEntry RawFileAttr :=
  if path = ROOT_INODE then
    .ok (fs.ttl, (fs.root_attr req.uid req.gid).as_raw ROOT_INODE 0)
  else if path = HELLO_INODE then
    .ok (fs.ttl, (fs.hello_attr req.uid req.gid).as_raw HELLO_INODE 0)
  else
    .error ENOENT

/-- The per-request outcome of `HelloFS`'s `read` body before the callback
is invoked: `some r` means the body computes `r` and passes it to the
callback; `none` means the slice indexing `HELLO_CONTENT[start..end]` is
out of bounds (a panic in the source — the callback is never reached). -/
def readResult (path : Inode) (offset size : Nat) : Option ResultSlice :=
  if path = HELLO_INODE then
    if offset + size ≤ HELLO_CONTENT.length then
      some (.ok ((HELLO_CONTENT.drop offset).take size))
    else
      none
  else
    some (.error ENOENT)

/-- `HelloFS`'s `read`: computes the slice (or error) and hands it to the
callback; `none` models the out-of-bounds panic. -/
def read (_fs : HelloFS) (_req : RequestInfo) (path : Inode) (_fh : Nat)
    (offset size : Nat)
    (callback : ResultSlice → CallbackResult) : Option CallbackResult :=
  (readResult path offset size).map callback

/-- `HelloFS`'s `readdir`. -/
def readdir (_fs : HelloFS) (_req : RequestInfo) (path : Inode)
    (_fh : Nat) : ResultReaddir :=
  if path ≠ 1 then
    .error ENOENT
  else
    .ok [ { name := ".", kind := .directory }
        , { name := "..", kind := .directory }
        , { name := "hello.txt", kind := .directory } ]

/-- `HelloFS`'s `lookup` (from its `RawFilesystemMT` impl). -/
def lookup (fs : HelloFS) (req : RequestInfo) (parent : Inode)
    (name : String) : ResultEntry RawFileAttr :=
  if parent ≠ ROOT_INODE then
    .error ENOENT
  else if name = HELLO_NAME then
    .ok (fs.ttl, (fs.hello_attr req.uid req.gid).as_raw HELLO_INODE 0)
  else
    .error ENOENT

/-- `HelloFS`'s `forget`: empty body. -/
def forget (_fs : HelloFS) (_req : RequestInfo) (_path : Inode)
    (_nlookup : Nat) : Unit :=
  ()

/-- `HelloFS`'s `parent` (from its `RawFilesystemMT` impl). -/
def parent (_fs : HelloFS) (_req : RequestInfo) (path : Inode) : ResultInode :=
  if path = ROOT_INODE ∨ path = HELLO_INODE then
    .ok ROOT_INODE
  else
    .error ENOENT

end HelloFS

/-- Modelled from the spec: the Inode Entry of the Inode Table component
(the repository's inode-table module is referenced from src/src/types.rs
but its source is not under src/).  Fields per the spec's data model:
parent inode number, name relative to parent, kind, lookup count,
generation, unlinked flag. -/
structure InodeEntry where
  parent : Inode
  name : String
  kind : FileType
  lookupCount : Nat
  generation : Nat
  unlinked : Bool
deriving DecidableEq, Repr

/-- Modelled from the spec: the Inode Table, a bidirectional store mapping
inode number ↔ (parent, name).  The forward index is an association list
keyed by inode number; the (parent, name) → inode reverse index is realised
by searching the same list, which keeps the two indices consistent by
construction.  `freed` holds slots released by full removal, each paired
with the generation of its prior occupant; `nextInode` is the next fresh
number to mint. -/
structure InodeTable where
  entries : List (Inode × InodeEntry)
  freed : List (Inode × Nat)
  nextInode : Inode
deriving DecidableEq, Repr

namespace InodeTable

/-- Whether an inode number is known to the table. -/
def hasInode (t : InodeTable) (i : Inode) : Bool :=
  t.entries.any (fun e => e.1 == i)

/-- The first live (non-unlinked) entry bound at `(p, n)`, if any:
the reverse index of the table. -/
def findLive (t : InodeTable) (p : Inode) (n : String) :
    Option (Inode × InodeEntry) :=
  t.entries.find? (fun e => e.2.parent == p && e.2.name == n && !e.2.unlinked)

/-- Increment the lookup count of the entry (or entries) keyed `i`. -/
def bumpCount (i : Inode) (l : List (Inode × InodeEntry)) :
    List (Inode × InodeEntry) :=
  l.map (fun e =>
    if e.1 == i then (e.1, { e.2 with lookupCount := e.2.lookupCount + 1 })
    else e)

/-- The lookup count the table records for inode `i`, if `i` is known. -/
def countOf (t : InodeTable) (i : Inode) : Option Nat :=
  (t.entries.find? (fun e => e.1 == i)).map (fun e => e.2.lookupCount)

/-- Modelled from the spec: `allocate(parent, name, kind) -> inode` of the
Inode Table (module not under src/).  Per the spec's contract: fails with
NotFound (`ENOENT`) if the parent does not exist; if a live (non-unlinked)
entry already exists for `(parent, name)`, returns its inode number and
increments its lookup count; otherwise creates a new entry — reusing a
freed slot and bumping its generation if one is available, else minting a
new number — with lookup count 1. -/
def allocate (t : InodeTable) (p : Inode) (n : String) (k : FileType) :
    Except Int (Inode × InodeTable) :=
  if t.hasInode p = false then
    .error ENOENT
  else
    match t.findLive p n with
    | some (i, _) =>
        .ok (i, { t with entries := bumpCount i t.entries })
    | none =>
        match t.freed with
        | (i, g) :: rest =>
            .ok (i, { t with
              entries := (i, ⟨p, n, k, 1, g + 1, false⟩) :: t.entries
              freed := rest })
        | [] =>
            .ok (t.nextInode, { t with
              entries := (t.nextInode, ⟨p, n, k, 1, 0, false⟩) :: t.entries
              nextInode := t.nextInode + 1 })

end InodeTable

/-! ## Theorems -/

/-- Helper: the embedded `HELLO_CONTENT` has 30 bytes. -/
theorem hello_content_length : HelloFS.HELLO_CONTENT.length = 30 := rfl

/-- C1: every implementer operation of `FilesystemMT` that the implementer
does not provide falls back to a default reporting "operation not
supported": each of the thirty filesystem methods defaults to the `ENOSYS`
error (the `read` default reporting it by invoking its callback once with
the error), while the two lifecycle hooks are exceptions — `init` defaults
to success and `destroy` does nothing. -/
theorem C1_trait_defaults_not_supported {T Attr : Type} (req : RequestInfo)
    (p q : T) (nm nm2 tgt : String)
    (fh offset size mode rdev flags lockOwner mask pos : Nat)
    (ofh ouid ogid oat omt : Option Nat)
    (data : List Nat) (b : Bool) :
    @FilesystemMT.default_getattr T Attr req p ofh = .error ENOSYS ∧
    FilesystemMT.default_chmod req p ofh mode = .error ENOSYS ∧
    FilesystemMT.default_chown req p ofh ouid ogid = .error ENOSYS ∧
    FilesystemMT.default_truncate req p ofh size = .error ENOSYS ∧
    FilesystemMT.default_utimens req p ofh oat omt = .error ENOSYS ∧
    FilesystemMT.default_readlink req p = .error ENOSYS ∧
    @FilesystemMT.default_mknod T Attr req p nm mode rdev = .error ENOSYS ∧
    @FilesystemMT.default_mkdir T Attr req p nm mode = .error ENOSYS ∧
    FilesystemMT.default_unlink req p nm = .error ENOSYS ∧
    FilesystemMT.default_rmdir req p nm = .error ENOSYS ∧
    @FilesystemMT.default_symlink T Attr req p nm tgt = .error ENOSYS ∧
    FilesystemMT.default_rename req p nm q nm2 = .error ENOSYS ∧
    @FilesystemMT.default_link T Attr req p q nm = .error ENOSYS ∧
    FilesystemMT.default_open req p flags = .error ENOSYS ∧
    FilesystemMT.default_read req p fh offset size (fun r => [r]) =
      [.error ENOSYS] ∧
    FilesystemMT.default_write req p fh offset data flags = .error ENOSYS ∧
    FilesystemMT.default_flush req p fh lockOwner = .error ENOSYS ∧
    FilesystemMT.default_release req p fh flags lockOwner b = .error ENOSYS ∧
    FilesystemMT.default_fsync req p fh b = .error ENOSYS ∧
    FilesystemMT.default_opendir req p flags = .error ENOSYS ∧
    FilesystemMT.default_readdir req p fh = .error ENOSYS ∧
    FilesystemMT.default_releasedir req p fh flags = .error ENOSYS ∧
    FilesystemMT.default_fsyncdir req p fh b = .error ENOSYS ∧
    FilesystemMT.default_statfs req p = .error ENOSYS ∧
    FilesystemMT.default_setxattr req p nm data flags pos = .error ENOSYS ∧
    FilesystemMT.default_getxattr req p nm size = .error ENOSYS ∧
    FilesystemMT.default_listxattr req p size = .error ENOSYS ∧
    FilesystemMT.default_removexattr req p nm = .error ENOSYS ∧
    FilesystemMT.default_access req p mask = .error ENOSYS ∧
    @FilesystemMT.default_create T Attr req p nm mode flags = .error ENOSYS ∧
    FilesystemMT.default_init req = .ok () ∧
    FilesystemMT.default_destroy = () :=
  ⟨rfl, rfl, rfl, rfl, rfl, rfl, rfl, rfl, rfl, rfl, rfl, rfl, rfl, rfl,
   rfl, rfl, rfl, rfl, rfl, rfl, rfl, rfl, rfl, rfl, rfl, rfl, rfl, rfl,
   rfl, rfl, rfl, rfl⟩

/-- C3: the example filesystem lists the plain file `hello.txt` in its
root directory listing with a `Directory` kind tag, while the same
object's attribute operations (`getattr`, `lookup`) report it as a regular
file — the listing's kind tag is inconsistent with the entry being a
regular file. -/
theorem C3_example_listing_kind_inconsistent (fs : HelloFS)
    (req : RequestInfo) (fh uid gid : Nat) :
    HelloFS.readdir fs req 1 fh =
      .ok [⟨".", .directory⟩, ⟨"..", .directory⟩,
           ⟨"hello.txt", .directory⟩] ∧
    (fs.hello_attr uid gid).kind = .regularFile ∧
    HelloFS.lookup fs req 1 "hello.txt" =
      .ok (fs.ttl, (fs.hello_attr req.uid req.gid).as_raw 2 0) ∧
    HelloFS.getattr fs req 2 none =
      .ok (fs.ttl, (fs.hello_attr req.uid req.gid).as_raw 2 0) ∧
    FileType.directory ≠ FileType.regularFile :=
  ⟨rfl, rfl, rfl, rfl, by decide⟩

/-- C5: the raw-mode extension trait requires exactly three additional
operations, with no default bodies: `lookup` (parent inode and name to an
attribute entry carrying inode and generation), `forget` (inode and count
to nothing), and `parent` (inode to parent inode or error).  An instance
is precisely a triple of those three operations. -/
theorem C5_raw_trait_exactly_three_ops :
    (∀ r : RawFilesystemMT,
      r = RawFilesystemMT.mk r.lookup r.forget r.parent) ∧
    Nonempty (RawFilesystemMT ≃
      ((RequestInfo → Inode → String → ResultEntry RawFileAttr) ×
       (RequestInfo → Inode → Nat → Unit) ×
       (RequestInfo → Inode → ResultInode))) :=
  ⟨fun _ => rfl,
   ⟨⟨fun r => (r.lookup, r.forget, r.parent),
     fun t => ⟨t.1, t.2.1, t.2.2⟩,
     fun _ => rfl, fun _ => rfl⟩⟩⟩

/-- C6: in the example raw filesystem, the parent-inode query applied to
the root inode 1 returns 1 (the root's parent is itself), applied to
inode 2 returns 1, and applied to any other inode fails with `ENOENT`. -/
theorem C6_parent_root_is_self (fs : HelloFS) (req : RequestInfo)
    (i : Inode) :
    HelloFS.parent fs req 1 = .ok 1 ∧
    HelloFS.parent fs req 2 = .ok 1 ∧
    (i ≠ 1 → i ≠ 2 → HelloFS.parent fs req i = .error ENOENT) := by
  refine ⟨rfl, rfl, fun h1 h2 => ?_⟩
  simp [HelloFS.parent, HelloFS.ROOT_INODE, HelloFS.HELLO_INODE, h1, h2]

/-- Witness for C6 at inode 3 (and at the root). -/
theorem C6_witness :
    HelloFS.parent ⟨1, 0⟩ ⟨0, 0, 0, 0⟩ 3 = .error ENOENT ∧
    HelloFS.parent ⟨1, 0⟩ ⟨0, 0, 0, 0⟩ 1 = .ok 1 :=
  ⟨(C6_parent_root_is_self ⟨1, 0⟩ ⟨0, 0, 0, 0⟩ 3).2.2 (by decide) (by decide),
   (C6_parent_root_is_self ⟨1, 0⟩ ⟨0, 0, 0, 0⟩ 3).1⟩

/-- C7: a directory listing of root inode 1 in the example filesystem
returns exactly three entries named ".", ".." and "hello.txt" in that
order, and a listing request for any other inode fails with `ENOENT`. -/
theorem C7_readdir_root_exactly_three (fs : HelloFS) (req : RequestInfo)
    (fh : Nat) (i : Inode) :
    Except.map (List.map DirectoryEntry.name)
      (HelloFS.readdir fs req 1 fh) = .ok [".", "..", "hello.txt"] ∧
    (i ≠ 1 → HelloFS.readdir fs req i fh = .error ENOENT) := by
  refine ⟨rfl, fun h => ?_⟩
  simp [HelloFS.readdir, h]

/-- Witness for C7 at inode 5 (and at the root). -/
theorem C7_witness :
    HelloFS.readdir ⟨1, 0⟩ ⟨0, 0, 0, 0⟩ 5 0 = .error ENOENT ∧
    Except.map (List.map DirectoryEntry.name)
      (HelloFS.readdir ⟨1, 0⟩ ⟨0, 0, 0, 0⟩ 1 0) = .ok [".", "..", "hello.txt"] :=
  ⟨(C7_readdir_root_exactly_three ⟨1, 0⟩ ⟨0, 0, 0, 0⟩ 0 5).2 (by decide),
   (C7_readdir_root_exactly_three ⟨1, 0⟩ ⟨0, 0, 0, 0⟩ 0 5).1⟩

/-- C8: the example filesystem's `read` is not total: for every request on
inode 2 with `offset + size ≤ 30` it invokes the callback exactly once
with exactly the byte range `[offset, offset + size)` of `HELLO_CONTENT`
(which has 30 bytes), but for any request with `offset + size > 30` the
slice indexing `HELLO_CONTENT[start..end]` is out of bounds — the guarded
indexing error branch (`none`) is reached and no short read up to
end-of-file is produced. -/
theorem C8_read_not_total (fs : HelloFS) (req : RequestInfo)
    (fh offset size : Nat) :
    (offset + size ≤ 30 →
      HelloFS.read fs req 2 fh offset size (fun r => [r]) =
        some [.ok ((HelloFS.HELLO_CONTENT.drop offset).take size)]) ∧
    (offset + size > 30 →
      HelloFS.read fs req 2 fh offset size (fun r => [r]) = none) ∧
    HelloFS.HELLO_CONTENT.length = 30 := by
  refine ⟨fun h => ?_, fun h => ?_, hello_content_length⟩
  · simp [HelloFS.read, HelloFS.readResult, HelloFS.HELLO_INODE,
      hello_content_length, h]
  · simp [HelloFS.read, HelloFS.readResult, HelloFS.HELLO_INODE,
      hello_content_length, Nat.not_le.mpr h]

/-- Witness for C8: an in-bounds request (offset 0, size 30) answers the
callback once with the whole content; an out-of-bounds request (offset 0,
size 31) reaches the panic branch. -/
theorem C8_witness :
    HelloFS.read ⟨1, 0⟩ ⟨0, 0, 0, 0⟩ 2 0 0 30 (fun r => [r]) =
      some [.ok ((HelloFS.HELLO_CONTENT.drop 0).take 30)] ∧
    HelloFS.read ⟨1, 0⟩ ⟨0, 0, 0, 0⟩ 2 0 0 31 (fun r => [r]) = none :=
  ⟨(C8_read_not_total ⟨1, 0⟩ ⟨0, 0, 0, 0⟩ 0 0 30).1 (by decide),
   (C8_read_not_total ⟨1, 0⟩ ⟨0, 0, 0, 0⟩ 0 0 31).2.1 (by decide)⟩

/-- C10: the example filesystem's `getattr` succeeds exactly for inodes 1
and 2 (failing with `ENOENT` for every other inode), and the attributes it
returns mirror the requester: the `uid` and `gid` of the returned record
equal those carried in the `RequestInfo` of the call, so two requests from
different users observe different reported owners for the same object. -/
theorem C10_getattr_mirrors_requester (fs : HelloFS)
    (req req2 : RequestInfo) (i : Inode) (fh : Option Nat) :
    HelloFS.getattr fs req 1 fh =
      .ok (fs.ttl, (fs.root_attr req.uid req.gid).as_raw 1 0) ∧
    HelloFS.getattr fs req 2 fh =
      .ok (fs.ttl, (fs.hello_attr req.uid req.gid).as_raw 2 0) ∧
    (i ≠ 1 → i ≠ 2 → HelloFS.getattr fs req i fh = .error ENOENT) ∧
    ((∃ r, HelloFS.getattr fs req i fh = .ok r) ↔ (i = 1 ∨ i = 2)) ∧
    (∀ t r, HelloFS.getattr fs req i fh = .ok (t, r) →
      r.attr.uid = req.uid ∧ r.attr.gid = req.gid) ∧
    (∀ t r t2 r2, req.uid ≠ req2.uid →
      HelloFS.getattr fs req i fh = .ok (t, r) →
      HelloFS.getattr fs req2 i fh = .ok (t2, r2) →
      r.attr.uid ≠ r2.attr.uid) := by
  have hnf : ∀ (rq : RequestInfo), i ≠ 1 → i ≠ 2 →
      HelloFS.getattr fs rq i fh = .error ENOENT := by
    intro rq h1 h2
    simp [HelloFS.getattr, HelloFS.ROOT_INODE, HelloFS.HELLO_INODE, h1, h2]
  have key : ∀ (rq : RequestInfo) (t : Nat) (r : RawFileAttr),
      HelloFS.getattr fs rq i fh = .ok (t, r) →
      r.attr.uid = rq.uid ∧ r.attr.gid = rq.gid := by
    intro rq t r h
    by_cases h1 : i = 1
    · subst h1
      simp [HelloFS.getattr, HelloFS.ROOT_INODE] at h
      obtain ⟨-, hr⟩ := h
      subst hr
      exact ⟨rfl, rfl⟩
    by_cases h2 : i = 2
    · subst h2
      simp [HelloFS.getattr, HelloFS.ROOT_INODE, HelloFS.HELLO_INODE] at h
      obtain ⟨-, hr⟩ := h
      subst hr
      exact ⟨rfl, rfl⟩
    · rw [hnf rq h1 h2] at h
      exact absurd h (by simp)
  refine ⟨rfl, rfl, hnf req, ?_, key req, ?_⟩
  · constructor
    · rintro ⟨r, hr⟩
      by_cases h1 : i = 1
      · exact Or.inl h1
      by_cases h2 : i = 2
      · exact Or.inr h2
      · rw [hnf req h1 h2] at hr
        exact absurd hr (by simp)
    · rintro (h | h) <;> subst h
      · exact ⟨_, rfl⟩
      · exact ⟨_, rfl⟩
  · intro t r t2 r2 hne h h2
    have k1 := (key req t r h).1
    have k2 := (key req2 t2 r2 h2).1
    rw [k1, k2]
    exact hne

/-- Witness for C10: with fs = ⟨1, 0⟩, a request with uid 5 / gid 6 sees
itself as the owner of inode 1, a request with uid 7 sees a different
owner, and inode 3 does not exist. -/
theorem C10_witness :
    HelloFS.getattr ⟨1, 0⟩ ⟨0, 5, 6, 0⟩ 3 none = .error ENOENT ∧
    (((HelloFS.root_attr ⟨1, 0⟩ 5 6).as_raw 1 0).attr.uid = 5 ∧
     ((HelloFS.root_attr ⟨1, 0⟩ 5 6).as_raw 1 0).attr.gid = 6) ∧
    ((HelloFS.root_attr ⟨1, 0⟩ 5 6).as_raw 1 0).attr.uid ≠
      ((HelloFS.root_attr ⟨1, 0⟩ 7 6).as_raw 1 0).attr.uid :=
  ⟨(C10_getattr_mirrors_requester ⟨1, 0⟩ ⟨0, 5, 6, 0⟩ ⟨0, 7, 6, 0⟩ 3
      none).2.2.1 (by decide) (by decide),
   (C10_getattr_mirrors_requester ⟨1, 0⟩ ⟨0, 5, 6, 0⟩ ⟨0, 7, 6, 0⟩ 1
      none).2.2.2.2.1 1 ((HelloFS.root_attr ⟨1, 0⟩ 5 6).as_raw 1 0) rfl,
   (C10_getattr_mirrors_requester ⟨1, 0⟩ ⟨0, 5, 6, 0⟩ ⟨0, 7, 6, 0⟩ 1
      none).2.2.2.2.2 1 ((HelloFS.root_attr ⟨1, 0⟩ 5 6).as_raw 1 0) 1
      ((HelloFS.root_attr ⟨1, 0⟩ 7 6).as_raw 1 0) (by decide) rfl rfl⟩

/-- Helper: bumping the count of inode `i` commutes with looking `i` up:
the first entry keyed `i` after the bump is the first entry keyed `i`
before the bump, with its lookup count incremented. -/
theorem find_key_bumpCount (i : Inode) (l : List (Inode × InodeEntry)) :
    (InodeTable.bumpCount i l).find? (fun e => e.1 == i) =
      (l.find? (fun e => e.1 == i)).map
        (fun e => (e.1, { e.2 with lookupCount := e.2.lookupCount + 1 })) := by
  induction l with
  | nil => rfl
  | cons hd tl ih =>
    obtain ⟨k, v⟩ := hd
    simp only [InodeTable.bumpCount, List.map_cons] at ih ⊢
    by_cases h : (k == i) = true
    · rw [if_pos h]
      simp only [List.find?, h]
      rfl
    · rw [if_neg h]
      have h' : (k == i) = false := by simpa using h
      simp only [List.find?, h']
      exact ih

/-- Helper: the recorded count of a freshly prepended entry is its own. -/
theorem countOf_cons_self (t : InodeTable) (i : Inode) (e : InodeEntry)
    (freed : List (Inode × Nat)) (nx : Inode) :
    InodeTable.countOf ⟨(i, e) :: t.entries, freed, nx⟩ i =
      some e.lookupCount := by
  simp [InodeTable.countOf, List.find?]

/-- Helper: allocating `(p, n)` in a table whose head is a live entry for
`(p, n)` with lookup count 1 (as just created by a fresh allocation)
returns that head's inode and leaves its count at 2. -/
theorem allocate_after_fresh (t : InodeTable) (p : Inode) (n : String)
    (k k' : FileType) (i : Inode) (gen : Nat) (fr : List (Inode × Nat))
    (nx : Inode) (hp : t.hasInode p = true) :
    ∃ t₂,
      InodeTable.allocate ⟨(i, ⟨p, n, k, 1, gen, false⟩) :: t.entries, fr, nx⟩
          p n k' = .ok (i, t₂) ∧
      t₂.countOf i = some 2 := by
  have hp' : InodeTable.hasInode
      ⟨(i, ⟨p, n, k, 1, gen, false⟩) :: t.entries, fr, nx⟩ p = true := by
    simp [InodeTable.hasInode] at hp ⊢
    exact Or.inr hp
  have hl : InodeTable.findLive
      ⟨(i, ⟨p, n, k, 1, gen, false⟩) :: t.entries, fr, nx⟩ p n =
      some (i, ⟨p, n, k, 1, gen, false⟩) := by
    simp [InodeTable.findLive, List.find?]
  refine ⟨⟨InodeTable.bumpCount i ((i, ⟨p, n, k, 1, gen, false⟩) :: t.entries),
      fr, nx⟩, ?_, ?_⟩
  · simp [InodeTable.allocate, hp', hl]
  · simp only [InodeTable.countOf, find_key_bumpCount]
    rw [List.find?_cons_of_pos _ (by simp)]
    rfl

/-- C4: the Inode Table's `allocate` is idempotent with respect to
identical calls (modelled from the spec; the inode-table module is not
under src/): it fails with NotFound (`ENOENT`) when the parent is unknown;
when a live (non-unlinked) entry exists for `(parent, name)` it returns
that entry's inode and increments the count recorded for it; otherwise it
creates a new entry with lookup count 1; consequently two consecutive
`allocate p n k` calls before any forget return the identical inode number
and leave its lookup count equal to 2. -/
theorem C4_allocate_idempotent (t : InodeTable) (p : Inode) (n : String)
    (k : FileType) :
    (t.hasInode p = false → t.allocate p n k = .error ENOENT) ∧
    (∀ i e, t.hasInode p = true → t.findLive p n = some (i, e) →
      ∃ t', t.allocate p n k = .ok (i, t') ∧
        t'.countOf i = (t.countOf i).map (· + 1)) ∧
    (t.hasInode p = true → t.findLive p n = none →
      ∃ i t', t.allocate p n k = .ok (i, t') ∧ t'.countOf i = some 1) ∧
    (t.hasInode p = true → t.findLive p n = none →
      ∀ i₁ t₁ i₂ t₂,
        t.allocate p n k = .ok (i₁, t₁) →
        t₁.allocate p n k = .ok (i₂, t₂) →
        i₁ = i₂ ∧ t₂.countOf i₁ = some 2) := by
  refine ⟨fun h => ?_, fun i e hp hf => ?_, fun hp hf => ?_,
    fun hp hf i₁ t₁ i₂ t₂ h1 h2 => ?_⟩
  · simp [InodeTable.allocate, h]
  · refine ⟨⟨InodeTable.bumpCount i t.entries, t.freed, t.nextInode⟩,
      by simp [InodeTable.allocate, hp, hf], ?_⟩
    simp only [InodeTable.countOf, find_key_bumpCount]
    cases t.entries.find? (fun e => e.1 == i) <;> simp
  · rcases hfr : t.freed with _ | ⟨⟨j, g⟩, rest⟩
    · exact ⟨t.nextInode, _,
        by simp [InodeTable.allocate, hp, hf, hfr],
        countOf_cons_self t t.nextInode ⟨p, n, k, 1, 0, false⟩ []
          (t.nextInode + 1)⟩
    · exact ⟨j, _,
        by simp [InodeTable.allocate, hp, hf, hfr],
        countOf_cons_self t j ⟨p, n, k, 1, g + 1, false⟩ rest t.nextInode⟩
  · -- the first call takes a creation branch; identify `i₁` and `t₁`,
    -- then the second call finds the freshly created live head entry
    rcases hfr : t.freed with _ | ⟨⟨j, g⟩, rest⟩
    · have h1' : (Except.ok
          (t.nextInode, (⟨(t.nextInode, ⟨p, n, k, 1, 0, false⟩) :: t.entries,
            [], t.nextInode + 1⟩ : InodeTable)) :
          Except Int (Inode × InodeTable)) = .ok (i₁, t₁) := by
        rw [← h1]; simp [InodeTable.allocate, hp, hf, hfr]
      simp only [Except.ok.injEq, Prod.mk.injEq] at h1'
      obtain ⟨hi, ht⟩ := h1'
      obtain ⟨t₂', ha, hc⟩ := allocate_after_fresh
        ⟨t.entries, [], t.nextInode + 1⟩ p n k k t.nextInode 0 []
        (t.nextInode + 1) (by simpa [InodeTable.hasInode] using hp)
      have ha' : t₁.allocate p n k = .ok (i₁, t₂') := by
        rw [← ht, ← hi]
        exact ha
      rw [ha'] at h2
      simp only [Except.ok.injEq, Prod.mk.injEq] at h2
      obtain ⟨hi2, ht2⟩ := h2
      refine ⟨hi2, ?_⟩
      rw [← ht2, ← hi]
      exact hc
    · have h1' : (Except.ok
          (j, (⟨(j, ⟨p, n, k, 1, g + 1, false⟩) :: t.entries,
            rest, t.nextInode⟩ : InodeTable)) :
          Except Int (Inode × InodeTable)) = .ok (i₁, t₁) := by
        rw [← h1]; simp [InodeTable.allocate, hp, hf, hfr]
      simp only [Except.ok.injEq, Prod.mk.injEq] at h1'
      obtain ⟨hi, ht⟩ := h1'
      obtain ⟨t₂', ha, hc⟩ := allocate_after_fresh
        ⟨t.entries, rest, t.nextInode⟩ p n k k j (g + 1) rest
        t.nextInode (by simpa [InodeTable.hasInode] using hp)
      have ha' : t₁.allocate p n k = .ok (i₁, t₂') := by
        rw [← ht, ← hi]
        exact ha
      rw [ha'] at h2
      simp only [Except.ok.injEq, Prod.mk.injEq] at h2
      obtain ⟨hi2, ht2⟩ := h2
      refine ⟨hi2, ?_⟩
      rw [← ht2, ← hi]
      exact hc

/-- Witness for C4: starting from a table holding only the root entry,
two consecutive `allocate 1 "x" File` calls both return inode 2 and leave
its lookup count at 2. -/
theorem C4_witness :
    (2 : Inode) = 2 ∧
    InodeTable.countOf
      ⟨[(2, ⟨1, "x", .regularFile, 2, 0, false⟩),
        (1, ⟨1, "", .directory, 1, 0, false⟩)], [], 3⟩ 2 = some 2 :=
  (C4_allocate_idempotent
      ⟨[(1, ⟨1, "", .directory, 1, 0, false⟩)], [], 2⟩ 1 "x" .regularFile).2.2.2
    (by decide) (by decide) 2
    ⟨[(2, ⟨1, "x", .regularFile, 1, 0, false⟩),
      (1, ⟨1, "", .directory, 1, 0, false⟩)], [], 3⟩ 2
    ⟨[(2, ⟨1, "x", .regularFile, 2, 0, false⟩),
      (1, ⟨1, "", .directory, 1, 0, false⟩)], [], 3⟩
    rfl rfl

/-- C9: `RawFileAttr` round-trips with `FileAttr`: for every attribute
record `a`, inode `i` and generation `g`, `a.as_raw i g` carries `i` and
`g`, and both the `From` conversion and the `Deref` view recover `a`
unchanged. -/
theorem C9_rawfileattr_roundtrip (a : FileAttr) (i : Inode) (g : Nat) :
    (a.as_raw i g).inode = i ∧
    (a.as_raw i g).generation = g ∧
    FileAttr.fromRaw (a.as_raw i g) = a ∧
    (a.as_raw i g).deref = a :=
  ⟨rfl, rfl, rfl, rfl⟩

end FuseMT
